import Mathlib

/-!
Verification of the generic HID fallback driver (drivers/hid/hid-generic.c).

The C source is shallowly embedded: the report/field/usage records supplied by
the external descriptor parser become Lean structures holding exactly the
members the driver reads, and each driver entry point becomes a pure function
with the mutated state passed explicitly.  Machine arithmetic that can wrap is
modelled over Int/Nat with explicit reduction modulo 2^32.
-/

namespace HidGeneric

/-- Members of struct hid_usage read by this driver. -/
structure HidUsage where
  hid : Nat
  collection_index : Nat
  usage_index : Nat
deriving DecidableEq

/-- Members of struct hid_field read by this driver.  In C, field->usage
points to an array of usages; the driver's dereference of field->usage reads
the first element, modelled here by usage.head?. -/
structure HidField where
  index : Nat
  usage : List HidUsage
  logical_maximum : Int
  physical_maximum : Int
  value : List Int
deriving DecidableEq

/-- A report of the parsed capability descriptor: an id and its fields
(rep->maxfield is the length of the field list). -/
structure HidReport where
  id : Nat
  field : List HidField
deriving DecidableEq

/-- Members of struct hid_device this driver reads: the report lists of
report_enum[HID_INPUT_REPORT] and report_enum[HID_FEATURE_REPORT], and the
HID_QUIRK_HAVE_SPECIAL_DRIVER quirk bit. -/
structure HidDevice where
  inputReports : List HidReport
  featureReports : List HidReport
  quirksSpecialDriver : Bool
deriving DecidableEq

/-- HID usage code 0x00010038 (Generic Desktop / Wheel). -/
def HID_GD_WHEEL : Nat := 0x00010038

/-- HID usage code 0x000c0238 (Consumer / AC Pan, the horizontal wheel). -/
def HID_CP_AC_PAN : Nat := 0x000c0238

/-- HID usage code 0x00010048 (Generic Desktop / Resolution Multiplier). -/
def HID_GD_RESOLUTION_MULTIPLIER : Nat := 0x00010048

def REL_HWHEEL : Nat := 0x06
def REL_WHEEL : Nat := 0x08
def REL_WHEEL_HI_RES : Nat := 0x0b
def REL_HWHEEL_HI_RES : Nat := 0x0c
def EV_REL : Nat := 0x02

/-- The empty-slot sentinel: the C code stores (unsigned)-1 = 2^32 - 1 in
report_id[i] / field_index[i] to mark an unused multiplier slot. -/
def EMPTY_SLOT : Nat := 4294967295

/-- Conversion of a C signed 32-bit value to unsigned, as in the assignment
`unsigned multiplier = field->physical_maximum`. -/
def u32ofInt (n : Int) : Nat := (n % 4294967296).toNat

/-- Reinterpretation of a 32-bit quantity as a signed 32-bit value: the result
is congruent to n modulo 2^32 and lies in [-2^31, 2^31). This is the net
effect of C evaluating `__s32 * unsigned` (unsigned multiplication modulo
2^32) and passing the result back through an int parameter. -/
def s32wrap (n : Int) : Int := (n + 2147483648) % 4294967296 - 2147483648

/-- struct hid_generic_device: the per-device Device Context.  hdev and
device are the two back-references (opaque handles here). -/
structure HidGenericDevice where
  hdev : Nat
  device : Nat
  wheel_multiplier : Nat
  hwheel_multiplier : Nat
  report_id0 : Nat
  report_id1 : Nat
  field_index0 : Nat
  field_index1 : Nat
deriving DecidableEq

/-- The context as produced at the top of hid_generic_probe: devm_kzalloc
followed by the explicit initialisations (multipliers 1, both slots empty;
dev->device stays NULL until input_configured runs). -/
def initDevice (h : Nat) : HidGenericDevice :=
  { hdev := h
    device := 0
    wheel_multiplier := 1
    hwheel_multiplier := 1
    report_id0 := EMPTY_SLOT
    report_id1 := EMPTY_SLOT
    field_index0 := EMPTY_SLOT
    field_index1 := EMPTY_SLOT }

/-! ## Fallback Matcher -/

/-- One registered driver on the hid bus, as seen while matching one fixed
candidate device: whether it is the hid_generic driver itself, and whether
hid_match_device(hdev, hdrv) (external id-table lookup) is non-NULL. -/
structure BusDriver where
  isGeneric : Bool
  claims : Bool
deriving DecidableEq

/-- __check_hid_generic: 0 (false) for the generic driver itself, otherwise
whether the driver's id table matches the device. -/
def __check_hid_generic (d : BusDriver) : Bool :=
  if d.isGeneric then false else d.claims

/-- bus_for_each_drv over the hid bus: returns the first non-zero result of
the callback, i.e. whether some registered driver satisfies it. -/
def bus_for_each_drv (drvs : List BusDriver) : Bool :=
  drvs.any __check_hid_generic

/-- hid_generic_match. -/
def hid_generic_match (hdev : HidDevice) (ignore_special_driver : Bool)
    (drvs : List BusDriver) : Bool :=
  if ignore_special_driver then true
  else if hdev.quirksSpecialDriver then false
  else if bus_for_each_drv drvs then false
  else true

/-! ## Capability Scanner -/

/-- usage_in_collection: walks every field of every input report, but reads
only the FIRST usage of each field (the C dereferences field->usage). -/
def usage_in_collection (hdev : HidDevice) (usage_id collection : Nat) : Bool :=
  hdev.inputReports.any fun rep =>
    rep.field.any fun field =>
      match field.usage.head? with
      | some u => u.hid == usage_id && u.collection_index == collection
      | none => false

/-- Modelled from the spec's words for comparison with usage_in_collection:
"returns true if any usage within any field matches both the given usage
identifier and collection index". -/
def usage_in_collection_spec (hdev : HidDevice) (usage_id collection : Nat) : Bool :=
  hdev.inputReports.any fun rep =>
    rep.field.any fun field =>
      field.usage.any fun u =>
        u.hid == usage_id && u.collection_index == collection

/-! ## Multiplier Discovery -/

/-- handle_resolution_multiplier: invoked on a feature field whose first
usage is the Resolution Multiplier usage.  The hid_err logging of the error
branch is an external side effect and is not modelled. -/
def handle_resolution_multiplier (hdev : HidDevice) (rep : HidReport)
    (field : HidField) (usage : HidUsage) (dev : HidGenericDevice) :
    HidGenericDevice :=
  let multiplier := u32ofInt field.physical_maximum
  let w := usage_in_collection hdev HID_GD_WHEEL usage.collection_index
  let h := usage_in_collection hdev HID_CP_AC_PAN usage.collection_index
  if !w && !h then dev
  else
    let dev := if w then { dev with wheel_multiplier := multiplier } else dev
    let dev := if h then { dev with hwheel_multiplier := multiplier } else dev
    if dev.report_id0 == EMPTY_SLOT then
      { dev with report_id0 := rep.id, field_index0 := field.index }
    else if dev.report_id1 == EMPTY_SLOT then
      { dev with report_id1 := rep.id, field_index1 := field.index }
    else
      { dev with wheel_multiplier := 1, hwheel_multiplier := 1 }

/-- The body of the inner loop of hid_generic_fetch_resolution_multiplier:
the C dereferences field->usage (the first usage) and calls
handle_resolution_multiplier when it is the Resolution Multiplier usage. -/
def fetchFieldStep (hdev : HidDevice) (rep : HidReport)
    (dev : HidGenericDevice) (field : HidField) : HidGenericDevice :=
  match field.usage.head? with
  | some usage =>
      if usage.hid == HID_GD_RESOLUTION_MULTIPLIER then
        handle_resolution_multiplier hdev rep field usage dev
      else dev
  | none => dev

/-- One feature report's worth of the fetch loop. -/
def fetchReportStep (hdev : HidDevice) (dev : HidGenericDevice)
    (rep : HidReport) : HidGenericDevice :=
  rep.field.foldl (fetchFieldStep hdev rep) dev

/-- hid_generic_fetch_resolution_multiplier: walk every field of every
feature report. -/
def hid_generic_fetch_resolution_multiplier (hdev : HidDevice)
    (dev : HidGenericDevice) : HidGenericDevice :=
  hdev.featureReports.foldl (fetchReportStep hdev) dev

/-! ## Multiplier Activator -/

/-- The index read by the activation loop: usage->usage_index of the field's
first usage (0 when the field has no usage at all, where C would read out of
bounds). -/
def usageIdx (field : HidField) : Nat :=
  ((field.usage.head?).map HidUsage.usage_index).getD 0

/-- The assignment field->value[usage->usage_index] = field->logical_maximum,
where usage is the field's first usage (List.set is the in-place store; out of
range it is a no-op, where the C would write out of bounds). -/
def setFieldValue (field : HidField) : HidField :=
  { field with value := field.value.set (usageIdx field) field.logical_maximum }

/-- Update position fidx of a list in place (rep->field[fidx] mutation). -/
def modifyIdx {α : Type} (n : Nat) (f : α → α) : List α → List α
  | [] => []
  | x :: xs =>
      match n with
      | 0 => f x :: xs
      | m + 1 => x :: modifyIdx m f xs

/-- The report after the store into its field dev->field_index[i]. -/
def set_multiplier_field (fidx : Nat) (rep : HidReport) : HidReport :=
  { rep with field := modifyIdx fidx setFieldValue rep.field }

/-- One iteration of the activation loop for an occupied slot: look the
report up by id in report_id_hash, store the logical maximum into the slot's
field, and issue hid_hw_request(hdev, rep, HID_REQ_SET_REPORT) — recorded as
the id of the report handed to the transport.  A missing id would be a NULL
dereference in C; it is modelled as issuing no request. -/
def activate_slot (reports : List HidReport) (rid fidx : Nat) :
    List HidReport × List Nat :=
  let updated := reports.map fun rep =>
    if rep.id == rid then set_multiplier_field fidx rep else rep
  match updated.find? (fun rep => rep.id == rid) with
  | some rep => (updated, [rep.id])
  | none => (updated, [])

/-- hid_generic_set_resolution_multiplier: the i < 2 loop unrolled, with the
break at the first empty slot.  Returns the (unchanged) Device Context, the
feature reports after the stores, and the issued SET_REPORT requests. -/
def hid_generic_set_resolution_multiplier (dev : HidGenericDevice)
    (reports : List HidReport) :
    HidGenericDevice × List HidReport × List Nat :=
  if dev.wheel_multiplier == 1 && dev.hwheel_multiplier == 1 then
    (dev, reports, [])
  else if dev.report_id0 == EMPTY_SLOT then
    (dev, reports, [])
  else
    let s0 := activate_slot reports dev.report_id0 dev.field_index0
    if dev.report_id1 == EMPTY_SLOT then
      (dev, s0.1, s0.2)
    else
      let s1 := activate_slot s0.1 dev.report_id1 dev.field_index1
      (dev, s1.1, s0.2 ++ s1.2)

/-- hid_generic_reset_resume re-runs the Activator and returns 0. -/
def hid_generic_reset_resume (dev : HidGenericDevice)
    (reports : List HidReport) :
    HidGenericDevice × List HidReport × List Nat × Int :=
  let out := hid_generic_set_resolution_multiplier dev reports
  (out.1, out.2.1, out.2.2, 0)

/-! ## Event Translator -/

/-- One call into the input-event sink. -/
inductive Emission where
  | rel (code : Nat) (value : Int)
  | sync
deriving DecidableEq

/-- hid_generic_event: switches on field->usage->hid (the FIRST usage of the
field; an empty usage list, undefined in C, matches no case).  The high
resolution magnitude is the C expression `value * dev->wheel_multiplier`
(__s32 times unsigned: unsigned multiplication modulo 2^32, reinterpreted as
a signed int by input_report_rel), i.e. s32wrap of the exact product.  The
function returns 1 on every path. -/
def hid_generic_event (dev : HidGenericDevice) (field : HidField)
    (usage : HidUsage) (value : Int) :
    HidGenericDevice × List Emission × Int :=
  match field.usage.head? with
  | some u =>
      if u.hid == HID_GD_WHEEL then
        (dev,
         [Emission.rel REL_WHEEL_HI_RES
            (s32wrap (value * (dev.wheel_multiplier : Int))),
          Emission.rel REL_WHEEL value,
          Emission.sync], 1)
      else if u.hid == HID_CP_AC_PAN then
        (dev,
         [Emission.rel REL_HWHEEL_HI_RES
            (s32wrap (value * (dev.hwheel_multiplier : Int))),
          Emission.rel REL_HWHEEL value,
          Emission.sync], 1)
      else (dev, [], 1)
  | none => (dev, [], 1)

/-! ## Capability Advertisement -/

/-- hid_generic_input_configured: records the input sink back-reference and
declares the high-resolution event kinds when the corresponding multiplier
exceeds 1.  Returns the updated context and the input_set_capability calls
as (event type, event code) pairs. -/
def hid_generic_input_configured (dev : HidGenericDevice) (input : Nat) :
    HidGenericDevice × List (Nat × Nat) :=
  let dev := { dev with device := input }
  let caps :=
    (if dev.wheel_multiplier > 1 then [(EV_REL, REL_WHEEL_HI_RES)] else []) ++
    (if dev.hwheel_multiplier > 1 then [(EV_REL, REL_HWHEEL_HI_RES)] else [])
  (dev, caps)

/-! ## Probe -/

/-- The outcome of hid_generic_probe: the drvdata context, the feature
reports after activation, the issued SET_REPORT requests, and the returned
error code. -/
structure ProbeResult where
  dev : HidGenericDevice
  reports : List HidReport
  writes : List Nat
  ret : Int
deriving DecidableEq

/-- hid_generic_probe, with the results of the external calls passed in:
parseRet is what hid_parse returns and startRet what hid_hw_start returns.
Allocation failure and the quirk update are external effects outside the
claims and are not modelled.  Note the source runs the Activator after
hid_hw_start unconditionally and only then returns hid_hw_start's result. -/
def hid_generic_probe (hdev : HidDevice) (h : Nat)
    (parseRet startRet : Int) : ProbeResult :=
  let dev := initDevice h
  if parseRet != 0 then
    { dev := dev, reports := hdev.featureReports, writes := [], ret := parseRet }
  else
    let dev := hid_generic_fetch_resolution_multiplier hdev dev
    let out := hid_generic_set_resolution_multiplier dev hdev.featureReports
    { dev := out.1, reports := out.2.1, writes := out.2.2, ret := startRet }

/-! ## Derived notions used to state the properties -/

/-- A feature field qualifies for a multiplier slot: its first usage is the
Resolution Multiplier usage and its collection also holds a wheel or a
horizontal-wheel usage (the conditions under which
handle_resolution_multiplier reaches the slot assignment). -/
def qualifies (hdev : HidDevice) (field : HidField) : Bool :=
  match field.usage.head? with
  | some u =>
      u.hid == HID_GD_RESOLUTION_MULTIPLIER &&
        (usage_in_collection hdev HID_GD_WHEEL u.collection_index ||
         usage_in_collection hdev HID_CP_AC_PAN u.collection_index)
  | none => false

/-- Number of qualifying resolution-multiplier fields over the whole
feature-direction report set. -/
def numQualifying (hdev : HidDevice) : Nat :=
  (hdev.featureReports.map fun rep =>
    (rep.field.filter (qualifies hdev)).length).sum

/-- Slot occupancy in order: slot 1 occupied implies slot 0 occupied. -/
def slotsOrdered (dev : HidGenericDevice) : Prop :=
  dev.report_id1 ≠ EMPTY_SLOT → dev.report_id0 ≠ EMPTY_SLOT

/-- Each occupied slot's recorded report id occurs in the report list. -/
def slotIdsPresent (dev : HidGenericDevice) (reports : List HidReport) : Prop :=
  (dev.report_id0 ≠ EMPTY_SLOT →
    reports.any (fun r => r.id == dev.report_id0) = true) ∧
  (dev.report_id1 ≠ EMPTY_SLOT →
    reports.any (fun r => r.id == dev.report_id1) = true)

instance (dev : HidGenericDevice) : Decidable (slotsOrdered dev) :=
  inferInstanceAs
    (Decidable (dev.report_id1 ≠ EMPTY_SLOT → dev.report_id0 ≠ EMPTY_SLOT))

instance (dev : HidGenericDevice) (reports : List HidReport) :
    Decidable (slotIdsPresent dev reports) :=
  inferInstanceAs
    (Decidable ((dev.report_id0 ≠ EMPTY_SLOT →
        reports.any (fun r => r.id == dev.report_id0) = true) ∧
      (dev.report_id1 ≠ EMPTY_SLOT →
        reports.any (fun r => r.id == dev.report_id1) = true)))

/-- The report ids of the occupied slots, slot 0 first. -/
def occupiedSlotIds (dev : HidGenericDevice) : List Nat :=
  (if dev.report_id0 == EMPTY_SLOT then [] else [dev.report_id0]) ++
  (if dev.report_id1 == EMPTY_SLOT then [] else [dev.report_id1])

/-- How many slots the activation loop visits: it stops at the first empty
slot. -/
def attemptedSlots (dev : HidGenericDevice) : Nat :=
  if dev.report_id0 == EMPTY_SLOT then 0
  else if dev.report_id1 == EMPTY_SLOT then 1
  else 2

/-- How many slots are occupied, regardless of order. -/
def occupiedSlotCount (dev : HidGenericDevice) : Nat :=
  (if dev.report_id0 == EMPTY_SLOT then 0 else 1) +
  (if dev.report_id1 == EMPTY_SLOT then 0 else 1)

/-- The field at position fidx of the report (when present) carries its own
logical maximum at its first usage's usage_index. -/
def fieldAtIsMax (rep : HidReport) (fidx : Nat) : Bool :=
  match rep.field[fidx]? with
  | some f => f.value[usageIdx f]? == some f.logical_maximum
  | none => true

/-- Every report with the slot's id has the slot's field programmed to its
logical maximum. -/
def slotProgrammed (reports : List HidReport) (rid fidx : Nat) : Bool :=
  reports.all fun rep => !(rep.id == rid) || fieldAtIsMax rep fidx

/-- The field at position fidx of the report (when present) has its first
usage's usage_index inside the bounds of its value array, as the C assumes. -/
def fieldInBounds (rep : HidReport) (fidx : Nat) : Bool :=
  match rep.field[fidx]? with
  | some f => usageIdx f < f.value.length
  | none => true

/-- Well-formedness of a slot against a report list: every report with the
slot's id satisfies fieldInBounds at the slot's field index. -/
def slotInBounds (reports : List HidReport) (rid fidx : Nat) : Bool :=
  reports.all fun rep => !(rep.id == rid) || fieldInBounds rep fidx

/-- The SET_REPORT requests of one activation, expressed through slot state
and report-id membership only. -/
def writeList (dev : HidGenericDevice) (reports : List HidReport) : List Nat :=
  if dev.wheel_multiplier == 1 && dev.hwheel_multiplier == 1 then []
  else if dev.report_id0 == EMPTY_SLOT then []
  else
    (if reports.any (fun r => r.id == dev.report_id0) then [dev.report_id0]
     else []) ++
    (if dev.report_id1 == EMPTY_SLOT then []
     else if reports.any (fun r => r.id == dev.report_id1) then [dev.report_id1]
     else [])

/-- Discovery invariant tying slot occupancy to the number of qualifying
fields processed so far. -/
def slotCountInv (n : Nat) (dev : HidGenericDevice) : Prop :=
  (dev.report_id0 ≠ EMPTY_SLOT ↔ 1 ≤ n) ∧
  (dev.report_id1 ≠ EMPTY_SLOT ↔ 2 ≤ n) ∧
  (3 ≤ n → dev.wheel_multiplier = 1 ∧ dev.hwheel_multiplier = 1)

/-- Discovery invariant used for activation: a non-default multiplier means
slot 0 is occupied, and an occupied slot 0 points at an existing feature
report. -/
def discoveryInv (hdev : HidDevice) (dev : HidGenericDevice) : Prop :=
  (dev.wheel_multiplier ≠ 1 ∨ dev.hwheel_multiplier ≠ 1 →
    dev.report_id0 ≠ EMPTY_SLOT) ∧
  (dev.report_id0 ≠ EMPTY_SLOT →
    ∃ r ∈ hdev.featureReports, r.id = dev.report_id0)

/-- The field's first usage is neither the wheel nor the horizontal-wheel
usage (or the field has no usage at all). -/
def isOtherUsage (field : HidField) : Bool :=
  match field.usage.head? with
  | some w => !(w.hid == HID_GD_WHEEL) && !(w.hid == HID_CP_AC_PAN)
  | none => true

/-- No usage of any feature field is the Resolution Multiplier usage: the
device presents no resolution-multiplier field. -/
def noResolutionMultiplier (hdev : HidDevice) : Bool :=
  hdev.featureReports.all fun rep =>
    rep.field.all fun f =>
      f.usage.all fun u => !(u.hid == HID_GD_RESOLUTION_MULTIPLIER)

/-! ## Concrete devices and contexts used as test inputs -/

/-- A wheel usage living in collection 5. -/
def wheelUsage5 : HidUsage := ⟨HID_GD_WHEEL, 5, 0⟩

/-- A Resolution Multiplier usage in the same collection 5. -/
def multUsage5 : HidUsage := ⟨HID_GD_RESOLUTION_MULTIPLIER, 5, 0⟩

/-- The input field carrying the wheel usage. -/
def wheelField5 : HidField := ⟨0, [wheelUsage5], 1, 1, [0]⟩

/-- A feature field: resolution multiplier with physical maximum 8. -/
def multField8 : HidField := ⟨0, [multUsage5], 1, 8, [0]⟩

/-- The input report of the concrete devices. -/
def inputRep5 : HidReport := ⟨2, [wheelField5]⟩

/-- The feature report holding the single multiplier field. -/
def featureRep8 : HidReport := ⟨1, [multField8]⟩

/-- A device with one wheel and one discoverable multiplier field (8×). -/
def oneWheelDevice : HidDevice := ⟨[inputRep5], [featureRep8], false⟩

/-- A device presenting three qualifying multiplier fields. -/
def threeMultDevice : HidDevice :=
  ⟨[inputRep5],
   [featureRep8, ⟨3, [multField8, ⟨1, [multUsage5], 1, 4, [0]⟩]⟩],
   false⟩

/-- A device presenting exactly two qualifying multiplier fields, so both
slots get occupied. -/
def twoMultDevice : HidDevice :=
  ⟨[inputRep5], [featureRep8, ⟨3, [⟨0, [multUsage5], 1, 4, [0]⟩]⟩], false⟩

/-- A device with a feature report but no resolution-multiplier usage. -/
def noMultDevice : HidDevice := ⟨[inputRep5], [⟨1, [wheelField5]⟩], false⟩

/-- A device whose single input field has two usages, where only the SECOND
usage (hid 7, collection 0) matches the scanned pair. -/
def twoUsageDevice : HidDevice :=
  ⟨[⟨1, [⟨0, [⟨1, 0, 0⟩, ⟨7, 0, 1⟩], 1, 1, [0]⟩]⟩], [], false⟩

/-- A context with a discovered wheel multiplier of 2. -/
def ctxMult2 : HidGenericDevice := { initDevice 0 with wheel_multiplier := 2 }

/-- A context with a discovered wheel multiplier of 8. -/
def ctxMult8 : HidGenericDevice := { initDevice 0 with wheel_multiplier := 8 }

/-- An input field whose first usage (hid 99) is neither wheel nor pan. -/
def otherField : HidField := ⟨0, [⟨99, 0, 0⟩], 1, 1, [0]⟩

/-- The usage record delivered alongside otherField. -/
def otherUsage : HidUsage := ⟨99, 0, 0⟩

/-! ## Theorems -/

/-- C5: the Fallback Matcher accepts every device when the force flag is
set; rejects every device flagged as requiring a specialized driver; and
otherwise accepts exactly when no other registered driver (excluding the
generic driver itself) claims the device. -/
theorem hid_generic_match_fallback :
    ∀ (hdev : HidDevice) (drvs : List BusDriver),
      hid_generic_match hdev true drvs = true ∧
      (hdev.quirksSpecialDriver = true →
        hid_generic_match hdev false drvs = false) ∧
      (hdev.quirksSpecialDriver = false →
        (hid_generic_match hdev false drvs = true ↔
          ∀ d ∈ drvs, d.isGeneric = true ∨ d.claims = false)) := by
  intro hdev drvs
  refine ⟨rfl, fun hq => by simp [hid_generic_match, hq], fun hq => ?_⟩
  simp only [hid_generic_match, hq, Bool.false_eq_true, if_false]
  rw [show (if bus_for_each_drv drvs then false else true) = !bus_for_each_drv drvs
      by cases bus_for_each_drv drvs <;> rfl]
  simp only [Bool.not_eq_true', bus_for_each_drv, List.any_eq_false,
    __check_hid_generic]
  constructor
  · intro h d hd
    have := h d hd
    cases hg : d.isGeneric <;> simp_all
  · intro h d hd
    have := h d hd
    cases hg : d.isGeneric <;> simp_all

/-- C5 witness: a device claimed by another driver but with the generic
driver excluded from the scan is still accepted when nobody else claims it. -/
theorem hid_generic_match_fallback_witness :
    hid_generic_match ⟨[], [], false⟩ false [⟨true, true⟩, ⟨false, false⟩] = true :=
  ((hid_generic_match_fallback ⟨[], [], false⟩
    [⟨true, true⟩, ⟨false, false⟩]).2.2 rfl).mpr (by decide)

/-- C4 counterexample: on a device whose single input field has two usages
and only the second matches (usage id 7, collection 0), the scanner returns
false although a usage within a field does match, so "returns true iff some
usage within some field matches" fails. -/
theorem usage_in_collection_counterexample :
    ¬(usage_in_collection twoUsageDevice 7 0 = true ↔
      usage_in_collection_spec twoUsageDevice 7 0 = true) := by decide

/-- C4 amended: usage_in_collection returns true iff some field of some
input report has its FIRST usage matching both the given usage identifier
and collection index; it scans every field of every input report but only
one usage per field. -/
theorem usage_in_collection_first_usage :
    ∀ (hdev : HidDevice) (usage_id collection : Nat),
      usage_in_collection hdev usage_id collection = true ↔
        ∃ rep ∈ hdev.inputReports, ∃ field ∈ rep.field, ∃ u,
          field.usage.head? = some u ∧
          u.hid = usage_id ∧ u.collection_index = collection := by
  intro hdev uid col
  simp only [usage_in_collection, List.any_eq_true]
  constructor
  · rintro ⟨rep, hrep, field, hfield, hmatch⟩
    refine ⟨rep, hrep, field, hfield, ?_⟩
    cases hu : field.usage.head? with
    | none => rw [hu] at hmatch; simp at hmatch
    | some u =>
        rw [hu] at hmatch
        simp only [Bool.and_eq_true, beq_iff_eq] at hmatch
        exact ⟨u, rfl, hmatch.1, hmatch.2⟩
  · rintro ⟨rep, hrep, field, hfield, u, hu, h1, h2⟩
    exact ⟨rep, hrep, field, hfield, by rw [hu]; simp [h1, h2]⟩

/-- C4 witness: the scanner accepts the pair matched by a field's first
usage (usage id 1, collection 0 on the two-usage device). -/
theorem usage_in_collection_first_usage_witness :
    usage_in_collection twoUsageDevice 1 0 = true :=
  (usage_in_collection_first_usage twoUsageDevice 1 0).mpr
    ⟨⟨1, [⟨0, [⟨1, 0, 0⟩, ⟨7, 0, 1⟩], 1, 1, [0]⟩]⟩, by decide,
     ⟨0, [⟨1, 0, 0⟩, ⟨7, 0, 1⟩], 1, 1, [0]⟩, by decide,
     ⟨1, 0, 0⟩, rfl, rfl, rfl⟩

/-- The wheel branch of hid_generic_event. -/
theorem hid_generic_event_wheel (dev : HidGenericDevice) (f : HidField)
    (u : HidUsage) (v : Int) (w : HidUsage)
    (hw : f.usage.head? = some w) (hh : w.hid = HID_GD_WHEEL) :
    hid_generic_event dev f u v =
      (dev,
       [Emission.rel REL_WHEEL_HI_RES (s32wrap (v * (dev.wheel_multiplier : Int))),
        Emission.rel REL_WHEEL v, Emission.sync], 1) := by
  simp [hid_generic_event, hw, hh]

/-- The horizontal-wheel branch of hid_generic_event. -/
theorem hid_generic_event_hwheel (dev : HidGenericDevice) (f : HidField)
    (u : HidUsage) (v : Int) (w : HidUsage)
    (hw : f.usage.head? = some w) (hh : w.hid = HID_CP_AC_PAN) :
    hid_generic_event dev f u v =
      (dev,
       [Emission.rel REL_HWHEEL_HI_RES (s32wrap (v * (dev.hwheel_multiplier : Int))),
        Emission.rel REL_HWHEEL v, Emission.sync], 1) := by
  simp [hid_generic_event, hw, hh, HID_CP_AC_PAN, HID_GD_WHEEL]

/-- C1 counterexample: with a wheel multiplier of 2 and event value
2^31 - 1, the emitted high-resolution magnitude is the 32-bit wrap -2, not
the exact product value × wheel_multiplier, so the claim as stated fails. -/
theorem hid_generic_event_overflow_counterexample :
    (hid_generic_event ctxMult2 wheelField5 wheelUsage5 2147483647).2.1 ≠
      [Emission.rel REL_WHEEL_HI_RES
         (2147483647 * (ctxMult2.wheel_multiplier : Int)),
       Emission.rel REL_WHEEL 2147483647, Emission.sync] := by decide

/-- C1 amended: on a wheel usage the Event Translator emits a
high-resolution relative-scroll event whose magnitude is value ×
wheel_multiplier reduced to a signed 32-bit quantity (equal to the exact
product whenever it fits), then a legacy relative-scroll event of magnitude
value, then a synchronization marker, and reports the event consumed
(returns 1); a horizontal-wheel usage follows the identical pattern with
hwheel_multiplier and the horizontal event kinds; in particular for value 3
and wheel_multiplier 8 the magnitudes are 24 and 3. -/
theorem hid_generic_event_translation :
    (∀ (dev : HidGenericDevice) (f : HidField) (u : HidUsage) (v : Int)
        (w : HidUsage), f.usage.head? = some w → w.hid = HID_GD_WHEEL →
        hid_generic_event dev f u v =
          (dev,
           [Emission.rel REL_WHEEL_HI_RES
              (s32wrap (v * (dev.wheel_multiplier : Int))),
            Emission.rel REL_WHEEL v, Emission.sync], 1)) ∧
    (∀ (dev : HidGenericDevice) (f : HidField) (u : HidUsage) (v : Int)
        (w : HidUsage), f.usage.head? = some w → w.hid = HID_CP_AC_PAN →
        hid_generic_event dev f u v =
          (dev,
           [Emission.rel REL_HWHEEL_HI_RES
              (s32wrap (v * (dev.hwheel_multiplier : Int))),
            Emission.rel REL_HWHEEL v, Emission.sync], 1)) ∧
    (∀ (dev : HidGenericDevice) (f : HidField) (u : HidUsage) (w : HidUsage),
        f.usage.head? = some w → w.hid = HID_GD_WHEEL →
        dev.wheel_multiplier = 8 →
        (hid_generic_event dev f u 3).2.1 =
          [Emission.rel REL_WHEEL_HI_RES 24, Emission.rel REL_WHEEL 3,
           Emission.sync]) := by
  refine ⟨fun dev f u v w hw hh => hid_generic_event_wheel dev f u v w hw hh,
          fun dev f u v w hw hh => hid_generic_event_hwheel dev f u v w hw hh,
          fun dev f u w hw hh hm => ?_⟩
  rw [hid_generic_event_wheel dev f u 3 w hw hh, hm]
  show [Emission.rel REL_WHEEL_HI_RES (s32wrap (3 * ((8 : Nat) : Int))),
        Emission.rel REL_WHEEL 3, Emission.sync] =
      [Emission.rel REL_WHEEL_HI_RES 24, Emission.rel REL_WHEEL 3,
       Emission.sync]
  decide

/-- C1 witness: the scenario value 3 with wheel multiplier 8 yields the
high-resolution magnitude 24, the legacy magnitude 3, then the sync marker,
and the event is consumed. -/
theorem hid_generic_event_translation_witness :
    hid_generic_event ctxMult8 wheelField5 wheelUsage5 3 =
      (ctxMult8,
       [Emission.rel REL_WHEEL_HI_RES 24, Emission.rel REL_WHEEL 3,
        Emission.sync], 1) := by
  rw [hid_generic_event_translation.1 ctxMult8 wheelField5 wheelUsage5 3
    wheelUsage5 rfl rfl]
  decide

/-- C8 counterexample: for a field whose first usage (hid 99) is neither
wheel nor horizontal wheel, hid_generic_event still returns 1 (consumed),
so "reports the event as not consumed" fails. -/
theorem hid_generic_event_consumed_counterexample :
    ¬((hid_generic_event (initDevice 0) otherField otherUsage 5).2.2 = 0) := by
  decide

/-- C8 amended: for every incoming event whose field's first usage is
neither the wheel nor the horizontal-wheel usage, the Event Translator
emits nothing and leaves the context unchanged, but still reports the event
as consumed (returns 1); such events reach default handling only because
the driver's usage table keeps them from being routed here. -/
theorem hid_generic_event_other_usage :
    ∀ (dev : HidGenericDevice) (f : HidField) (u : HidUsage) (v : Int),
      isOtherUsage f = true →
      hid_generic_event dev f u v = (dev, [], 1) := by
  intro dev f u v h
  unfold isOtherUsage at h
  cases hu : f.usage.head? with
  | none => simp [hid_generic_event, hu]
  | some w =>
      rw [hu] at h
      simp only [Bool.and_eq_true, Bool.not_eq_eq_eq_not, Bool.not_true,
        beq_eq_false_iff_ne, ne_eq] at h
      simp [hid_generic_event, hu, h.1, h.2]

/-- C8 witness: a concrete event with usage hid 99 emits nothing and
returns 1. -/
theorem hid_generic_event_other_usage_witness :
    hid_generic_event (initDevice 3) otherField otherUsage 5 =
      (initDevice 3, [], 1) :=
  hid_generic_event_other_usage (initDevice 3) otherField otherUsage 5
    (by decide)

/-! ### Activation lemmas -/

theorem modifyIdx_getElem_self {α : Type} (f : α → α) :
    ∀ (n : Nat) (l : List α), (modifyIdx n f l)[n]? = (l[n]?).map f := by
  intro n l
  induction l generalizing n with
  | nil => cases n <;> simp [modifyIdx]
  | cons x xs ih =>
      cases n with
      | zero => simp [modifyIdx]
      | succ m => simp [modifyIdx, ih]

theorem modifyIdx_getElem_ne {α : Type} (f : α → α) :
    ∀ (m n : Nat) (l : List α), m ≠ n → (modifyIdx n f l)[m]? = l[m]? := by
  intro m n l
  induction l generalizing m n with
  | nil => intro _; cases n <;> simp [modifyIdx]
  | cons x xs ih =>
      intro hne
      cases n with
      | zero =>
          cases m with
          | zero => exact absurd rfl hne
          | succ k => simp [modifyIdx]
      | succ j =>
          cases m with
          | zero => simp [modifyIdx]
          | succ k =>
              simp only [modifyIdx, List.getElem?_cons_succ]
              exact ih k j (fun hh => hne (by rw [hh]))

theorem setFieldValue_usage (f : HidField) : (setFieldValue f).usage = f.usage :=
  rfl

theorem setFieldValue_logicalMax (f : HidField) :
    (setFieldValue f).logical_maximum = f.logical_maximum := rfl

theorem usageIdx_setFieldValue (f : HidField) :
    usageIdx (setFieldValue f) = usageIdx f := rfl

theorem setFieldValue_value_length (f : HidField) :
    (setFieldValue f).value.length = f.value.length := by
  simp [setFieldValue]

theorem set_multiplier_field_id (fidx : Nat) (rep : HidReport) :
    (set_multiplier_field fidx rep).id = rep.id := rfl

theorem set_multiplier_field_getElem (fidx : Nat) (rep : HidReport) :
    (set_multiplier_field fidx rep).field[fidx]? =
      (rep.field[fidx]?).map setFieldValue :=
  modifyIdx_getElem_self setFieldValue fidx rep.field

theorem set_multiplier_field_getElem_ne (fidx fidx' : Nat) (rep : HidReport)
    (hne : fidx ≠ fidx') :
    (set_multiplier_field fidx' rep).field[fidx]? = rep.field[fidx]? :=
  modifyIdx_getElem_ne setFieldValue fidx fidx' rep.field hne

theorem fieldAtIsMax_after_set (rep : HidReport) (fidx : Nat)
    (hb : fieldInBounds rep fidx = true) :
    fieldAtIsMax (set_multiplier_field fidx rep) fidx = true := by
  unfold fieldAtIsMax
  rw [set_multiplier_field_getElem]
  unfold fieldInBounds at hb
  cases hf : rep.field[fidx]? with
  | none => simp
  | some f =>
      rw [hf] at hb
      simp only [decide_eq_true_eq] at hb
      simp only [Option.map_some']
      rw [usageIdx_setFieldValue, setFieldValue_logicalMax]
      have hv : (setFieldValue f).value =
          f.value.set (usageIdx f) f.logical_maximum := rfl
      rw [hv, List.getElem?_set_self hb]
      simp

theorem fieldInBounds_after_set (rep : HidReport) (fidx fidx' : Nat)
    (hb : fieldInBounds rep fidx = true) :
    fieldInBounds (set_multiplier_field fidx' rep) fidx = true := by
  unfold fieldInBounds at *
  by_cases he : fidx = fidx'
  · subst he
    rw [set_multiplier_field_getElem]
    cases hf : rep.field[fidx]? with
    | none => simp
    | some f =>
        rw [hf] at hb
        simp only [Option.map_some']
        rw [usageIdx_setFieldValue, setFieldValue_value_length]
        exact hb
  · rw [set_multiplier_field_getElem_ne fidx fidx' rep he]
    exact hb

theorem fieldAtIsMax_after_other_set (rep : HidReport) (fidx fidx' : Nat)
    (hm : fieldAtIsMax rep fidx = true) :
    fieldAtIsMax (set_multiplier_field fidx' rep) fidx = true := by
  unfold fieldAtIsMax at *
  by_cases he : fidx = fidx'
  · subst he
    rw [set_multiplier_field_getElem]
    cases hf : rep.field[fidx]? with
    | none => simp
    | some f =>
        rw [hf] at hm
        simp only [beq_iff_eq] at hm
        have hlen : usageIdx f < f.value.length := by
          by_contra hge
          rw [List.getElem?_eq_none (Nat.le_of_not_lt hge)] at hm
          exact Option.noConfusion hm
        simp only [Option.map_some']
        rw [usageIdx_setFieldValue, setFieldValue_logicalMax]
        have hv : (setFieldValue f).value =
            f.value.set (usageIdx f) f.logical_maximum := rfl
        rw [hv, List.getElem?_set_self hlen]
        simp
  · rw [set_multiplier_field_getElem_ne fidx fidx' rep he]
    exact hm

theorem any_id_map_update (reports : List HidReport) (rid fidx rid' : Nat) :
    ((reports.map fun rep =>
        if rep.id == rid then set_multiplier_field fidx rep else rep).any
      fun r => r.id == rid') =
      reports.any fun r => r.id == rid' := by
  induction reports with
  | nil => rfl
  | cons r rs ih =>
      simp only [List.map_cons, List.any_cons, ih]
      by_cases hc : (r.id == rid) = true
      · rw [hc]
        simp [set_multiplier_field_id]
      · rw [Bool.of_not_eq_true hc]
        simp

theorem find?_id_writes (l : List HidReport) (rid : Nat) :
    (match l.find? (fun rep => rep.id == rid) with
     | some rep => [rep.id]
     | none => ([] : List Nat)) =
      if l.any (fun r => r.id == rid) then [rid] else [] := by
  cases hf : l.find? (fun rep => rep.id == rid) with
  | none =>
      have hany : (l.any fun r => r.id == rid) = false :=
        List.any_eq_false.mpr (List.find?_eq_none.mp hf)
      simp [hany]
  | some rep =>
      have hp := List.find?_some hf
      have hmem := List.mem_of_find?_eq_some hf
      have hany : (l.any fun r => r.id == rid) = true :=
        List.any_eq_true.mpr ⟨rep, hmem, hp⟩
      have hid : rep.id = rid := by simpa using hp
      simp [hany, hid]

theorem activate_slot_fst (reports : List HidReport) (rid fidx : Nat) :
    (activate_slot reports rid fidx).1 =
      reports.map fun rep =>
        if rep.id == rid then set_multiplier_field fidx rep else rep := by
  unfold activate_slot
  dsimp only
  cases hf : (reports.map fun rep =>
      if rep.id == rid then set_multiplier_field fidx rep else rep).find?
      (fun rep => rep.id == rid) <;> rfl

theorem activate_slot_any (reports : List HidReport) (rid fidx rid' : Nat) :
    ((activate_slot reports rid fidx).1.any fun r => r.id == rid') =
      reports.any fun r => r.id == rid' := by
  rw [activate_slot_fst]
  exact any_id_map_update reports rid fidx rid'

theorem activate_slot_writes (reports : List HidReport) (rid fidx : Nat) :
    (activate_slot reports rid fidx).2 =
      if reports.any (fun r => r.id == rid) then [rid] else [] := by
  have hmain := find?_id_writes
    (reports.map fun rep =>
      if rep.id == rid then set_multiplier_field fidx rep else rep) rid
  rw [any_id_map_update reports rid fidx rid] at hmain
  rw [← hmain]
  unfold activate_slot
  dsimp only
  cases hf : (reports.map fun rep =>
      if rep.id == rid then set_multiplier_field fidx rep else rep).find?
      (fun rep => rep.id == rid) <;> rfl

theorem set_resolution_dev_unchanged (dev : HidGenericDevice)
    (reports : List HidReport) :
    (hid_generic_set_resolution_multiplier dev reports).1 = dev := by
  unfold hid_generic_set_resolution_multiplier
  split
  · rfl
  · split
    · rfl
    · split <;> rfl

theorem set_resolution_writes_eq (dev : HidGenericDevice)
    (reports : List HidReport) :
    (hid_generic_set_resolution_multiplier dev reports).2.2 =
      writeList dev reports := by
  unfold hid_generic_set_resolution_multiplier writeList
  dsimp only
  split
  · rfl
  · split
    · rfl
    · rw [activate_slot_writes]
      split
      · simp
      · rw [activate_slot_writes, activate_slot_any]

theorem set_resolution_any (dev : HidGenericDevice)
    (reports : List HidReport) (rid' : Nat) :
    ((hid_generic_set_resolution_multiplier dev reports).2.1.any
        fun r => r.id == rid') =
      reports.any fun r => r.id == rid' := by
  unfold hid_generic_set_resolution_multiplier
  dsimp only
  split
  · rfl
  · split
    · rfl
    · split
      · exact activate_slot_any reports dev.report_id0 dev.field_index0 rid'
      · rw [activate_slot_any, activate_slot_any]

theorem slot_programmed_after_activate (reports : List HidReport)
    (rid fidx : Nat) (hb : slotInBounds reports rid fidx = true) :
    slotProgrammed (activate_slot reports rid fidx).1 rid fidx = true := by
  rw [activate_slot_fst]
  unfold slotProgrammed
  unfold slotInBounds at hb
  rw [List.all_eq_true] at *
  intro rep' hmem
  rw [List.mem_map] at hmem
  obtain ⟨r, hr, rfl⟩ := hmem
  by_cases hc : (r.id == rid) = true
  · rw [if_pos hc]
    have hbr := hb r hr
    rw [hc] at hbr
    simp only [Bool.not_true, Bool.false_or] at hbr
    rw [set_multiplier_field_id, hc]
    simp only [Bool.not_true, Bool.false_or]
    exact fieldAtIsMax_after_set r fidx hbr
  · rw [if_neg hc, Bool.of_not_eq_true hc]
    simp

theorem slot_programmed_preserved (reports : List HidReport)
    (rid fidx rid' fidx' : Nat)
    (hp : slotProgrammed reports rid fidx = true) :
    slotProgrammed (activate_slot reports rid' fidx').1 rid fidx = true := by
  rw [activate_slot_fst]
  unfold slotProgrammed at *
  rw [List.all_eq_true] at *
  intro rep' hmem
  rw [List.mem_map] at hmem
  obtain ⟨r, hr, rfl⟩ := hmem
  have hpr := hp r hr
  by_cases hc : (r.id == rid') = true
  · rw [if_pos hc, set_multiplier_field_id]
    by_cases hd : (r.id == rid) = true
    · rw [hd] at hpr
      simp only [Bool.not_true, Bool.false_or] at hpr
      rw [hd]
      simp only [Bool.not_true, Bool.false_or]
      exact fieldAtIsMax_after_other_set r fidx fidx' hpr
    · rw [Bool.of_not_eq_true hd]
      simp
  · rw [if_neg hc]
    exact hpr

theorem slot_inbounds_preserved (reports : List HidReport)
    (rid fidx rid' fidx' : Nat)
    (hb : slotInBounds reports rid fidx = true) :
    slotInBounds (activate_slot reports rid' fidx').1 rid fidx = true := by
  rw [activate_slot_fst]
  unfold slotInBounds at *
  rw [List.all_eq_true] at *
  intro rep' hmem
  rw [List.mem_map] at hmem
  obtain ⟨r, hr, rfl⟩ := hmem
  have hbr := hb r hr
  by_cases hc : (r.id == rid') = true
  · rw [if_pos hc, set_multiplier_field_id]
    by_cases hd : (r.id == rid) = true
    · rw [hd] at hbr
      simp only [Bool.not_true, Bool.false_or] at hbr
      rw [hd]
      simp only [Bool.not_true, Bool.false_or]
      exact fieldInBounds_after_set r fidx fidx' hbr
    · rw [Bool.of_not_eq_true hd]
      simp
  · rw [if_neg hc]
    exact hbr

/-- C7: activation is idempotent over the Device Context: it returns the
context unchanged (the C never stores into the drvdata), running it a second
time on its own output issues the same sequence of SET_REPORT requests, and
the Event Translator returns the context unchanged on every event. -/
theorem activation_idempotent :
    ∀ (dev : HidGenericDevice) (reports : List HidReport),
      (hid_generic_set_resolution_multiplier dev reports).1 = dev ∧
      (hid_generic_set_resolution_multiplier dev
          (hid_generic_set_resolution_multiplier dev reports).2.1).1 = dev ∧
      (hid_generic_set_resolution_multiplier dev
          (hid_generic_set_resolution_multiplier dev reports).2.1).2.2 =
        (hid_generic_set_resolution_multiplier dev reports).2.2 ∧
      ∀ (f : HidField) (u : HidUsage) (v : Int),
        (hid_generic_event dev f u v).1 = dev := by
  intro dev reports
  refine ⟨set_resolution_dev_unchanged dev reports,
          set_resolution_dev_unchanged dev _, ?_, ?_⟩
  · rw [set_resolution_writes_eq, set_resolution_writes_eq]
    unfold writeList
    rw [set_resolution_any, set_resolution_any]
  · intro f u v
    unfold hid_generic_event
    cases hu : f.usage.head? with
    | none => rfl
    | some w =>
        dsimp only
        split
        · rfl
        · split <;> rfl

/-- C2: the Multiplier Activator is a no-op when both multipliers equal 1;
otherwise it issues exactly one SET_REPORT request per occupied slot (at
most two per invocation, slot 0 first) and stores each occupied slot's
field's own logical maximum into that field's value array at its first
usage's usage_index. -/
theorem set_resolution_multiplier_spec :
    (∀ (dev : HidGenericDevice) (reports : List HidReport),
        dev.wheel_multiplier = 1 → dev.hwheel_multiplier = 1 →
        hid_generic_set_resolution_multiplier dev reports =
          (dev, reports, [])) ∧
    (∀ (dev : HidGenericDevice) (reports : List HidReport),
        (hid_generic_set_resolution_multiplier dev reports).2.2.length ≤ 2) ∧
    (∀ (dev : HidGenericDevice) (reports : List HidReport),
        ¬(dev.wheel_multiplier = 1 ∧ dev.hwheel_multiplier = 1) →
        slotsOrdered dev → slotIdsPresent dev reports →
        (hid_generic_set_resolution_multiplier dev reports).2.2 =
          occupiedSlotIds dev) ∧
    (∀ (dev : HidGenericDevice) (reports : List HidReport),
        slotInBounds reports dev.report_id0 dev.field_index0 = true →
        slotInBounds reports dev.report_id1 dev.field_index1 = true →
        ¬(dev.wheel_multiplier = 1 ∧ dev.hwheel_multiplier = 1) →
        (dev.report_id0 ≠ EMPTY_SLOT →
          slotProgrammed (hid_generic_set_resolution_multiplier dev reports).2.1
            dev.report_id0 dev.field_index0 = true) ∧
        (dev.report_id1 ≠ EMPTY_SLOT → slotsOrdered dev →
          slotProgrammed (hid_generic_set_resolution_multiplier dev reports).2.1
            dev.report_id1 dev.field_index1 = true)) := by
  refine ⟨?_, ?_, ?_, ?_⟩
  · intro dev reports h1 h2
    unfold hid_generic_set_resolution_multiplier
    simp [h1, h2]
  · intro dev reports
    rw [set_resolution_writes_eq]
    unfold writeList
    split_ifs <;> simp
  · intro dev reports hmul hord hpres
    rw [set_resolution_writes_eq]
    unfold writeList occupiedSlotIds
    have hb : (dev.wheel_multiplier == 1 && dev.hwheel_multiplier == 1) = false := by
      simp only [Bool.and_eq_true, beq_iff_eq, ← Bool.not_eq_true]
      simpa using hmul
    rw [hb]
    by_cases h0 : (dev.report_id0 == EMPTY_SLOT) = true
    · have h0' : dev.report_id0 = EMPTY_SLOT := by simpa using h0
      have h1' : dev.report_id1 = EMPTY_SLOT := by
        by_contra hne
        exact absurd h0' (hord hne)
      simp [h0, h1']
    · have h0ne : dev.report_id0 ≠ EMPTY_SLOT := by simpa using h0
      have hany0 := hpres.1 h0ne
      by_cases h1 : (dev.report_id1 == EMPTY_SLOT) = true
      · simp [h0, h1, hany0]
      · have h1ne : dev.report_id1 ≠ EMPTY_SLOT := by simpa using h1
        have hany1 := hpres.2 h1ne
        simp [h0, h1, hany0, hany1]
  · intro dev reports hb0 hb1 hmul
    have hbm : (dev.wheel_multiplier == 1 && dev.hwheel_multiplier == 1) = false := by
      simp only [Bool.and_eq_true, beq_iff_eq, ← Bool.not_eq_true]
      simpa using hmul
    constructor
    · intro h0ne
      have h0 : (dev.report_id0 == EMPTY_SLOT) = false := by simpa using h0ne
      unfold hid_generic_set_resolution_multiplier
      dsimp only
      rw [hbm, h0]
      simp only [Bool.false_eq_true, if_false]
      split
      · exact slot_programmed_after_activate reports dev.report_id0
          dev.field_index0 hb0
      · exact slot_programmed_preserved _ _ _ _ _
          (slot_programmed_after_activate reports dev.report_id0
            dev.field_index0 hb0)
    · intro h1ne hord
      have h0ne := hord h1ne
      have h0 : (dev.report_id0 == EMPTY_SLOT) = false := by simpa using h0ne
      have h1 : (dev.report_id1 == EMPTY_SLOT) = false := by simpa using h1ne
      unfold hid_generic_set_resolution_multiplier
      dsimp only
      rw [hbm, h0, h1]
      simp only [Bool.false_eq_true, if_false]
      exact slot_programmed_after_activate _ dev.report_id1 dev.field_index1
        (slot_inbounds_preserved reports dev.report_id1 dev.field_index1
          dev.report_id0 dev.field_index0 hb1)

/-- C2 witness: on the concrete one-wheel device, after discovery the
activation issues exactly the occupied slot's SET_REPORT request. -/
theorem set_resolution_multiplier_spec_witness :
    (hid_generic_set_resolution_multiplier
        (hid_generic_fetch_resolution_multiplier oneWheelDevice (initDevice 0))
        oneWheelDevice.featureReports).2.2 =
      occupiedSlotIds
        (hid_generic_fetch_resolution_multiplier oneWheelDevice
          (initDevice 0)) :=
  set_resolution_multiplier_spec.2.2.1
    (hid_generic_fetch_resolution_multiplier oneWheelDevice (initDevice 0))
    oneWheelDevice.featureReports (by decide) (by decide) (by decide)

/-! ### Discovery fold lemmas -/

theorem foldl_preserve {α β : Type} (step : β → α → β) (P : β → Prop)
    (hstep : ∀ b x, P b → P (step b x)) :
    ∀ (l : List α) (b : β), P b → P (l.foldl step b) := by
  intro l
  induction l with
  | nil => intro b hb; simpa using hb
  | cons x xs ih =>
      intro b hb
      rw [List.foldl_cons]
      exact ih (step b x) (hstep b x hb)

theorem foldl_preserve_mem {α β : Type} (step : β → α → β) (P : β → Prop)
    (Q : α → Prop) :
    ∀ (l : List α), (∀ x ∈ l, Q x) →
      (∀ b x, Q x → P b → P (step b x)) →
      ∀ b, P b → P (l.foldl step b) := by
  intro l
  induction l with
  | nil => intro _ _ b hb; simpa using hb
  | cons x xs ih =>
      intro hQ hstep b hb
      rw [List.foldl_cons]
      exact ih (fun y hy => hQ y (List.mem_cons_of_mem x hy)) hstep _
        (hstep b x (hQ x (List.mem_cons_self x xs)) hb)

theorem foldl_fix {α β : Type} (step : β → α → β) :
    ∀ (l : List α), (∀ x ∈ l, ∀ b, step b x = b) →
      ∀ b, l.foldl step b = b := by
  intro l
  induction l with
  | nil => intro _ b; rfl
  | cons x xs ih =>
      intro hfix b
      rw [List.foldl_cons, hfix x (List.mem_cons_self x xs)]
      exact ih (fun y hy => hfix y (List.mem_cons_of_mem x hy)) b

theorem handle_slotsOrdered (hdev : HidDevice) (rep : HidReport)
    (field : HidField) (u : HidUsage) (dev : HidGenericDevice)
    (h : slotsOrdered dev) :
    slotsOrdered (handle_resolution_multiplier hdev rep field u dev) := by
  unfold handle_resolution_multiplier slotsOrdered at *
  dsimp only
  split_ifs <;> simp_all

theorem fetchFieldStep_slotsOrdered (hdev : HidDevice) (rep : HidReport)
    (dev : HidGenericDevice) (f : HidField) (h : slotsOrdered dev) :
    slotsOrdered (fetchFieldStep hdev rep dev f) := by
  unfold fetchFieldStep
  cases hu : f.usage.head? with
  | none => exact h
  | some u =>
      dsimp only
      split
      · exact handle_slotsOrdered hdev rep f u dev h
      · exact h

theorem attempted_eq_occupied (dev : HidGenericDevice)
    (hord : slotsOrdered dev) :
    attemptedSlots dev = occupiedSlotCount dev := by
  unfold attemptedSlots occupiedSlotCount
  by_cases h0 : (dev.report_id0 == EMPTY_SLOT) = true
  · have h1 : (dev.report_id1 == EMPTY_SLOT) = true := by
      by_contra hne
      have hne' : dev.report_id1 ≠ EMPTY_SLOT := by simpa using hne
      exact absurd (by simpa using h0) (hord hne')
    simp [h0, h1]
  · by_cases h1 : (dev.report_id1 == EMPTY_SLOT) = true <;> simp [h0, h1]

/-- C9: discovery only ever fills slot 0 before slot 1: for every device,
the Device Context reached by discovery from the freshly initialised
context has slot 1 occupied only if slot 0 is, and consequently the
activation loop, which stops at the first empty slot, visits exactly the
occupied slots. -/
theorem discovery_slot_fill_order :
    ∀ (hdev : HidDevice) (h : Nat),
      slotsOrdered
        (hid_generic_fetch_resolution_multiplier hdev (initDevice h)) ∧
      attemptedSlots
          (hid_generic_fetch_resolution_multiplier hdev (initDevice h)) =
        occupiedSlotCount
          (hid_generic_fetch_resolution_multiplier hdev (initDevice h)) := by
  intro hdev h
  have hP : slotsOrdered
      (hid_generic_fetch_resolution_multiplier hdev (initDevice h)) := by
    unfold hid_generic_fetch_resolution_multiplier
    apply foldl_preserve (fetchReportStep hdev) slotsOrdered
    · intro b rep hb
      unfold fetchReportStep
      exact foldl_preserve (fetchFieldStep hdev rep) slotsOrdered
        (fun b' f hb' => fetchFieldStep_slotsOrdered hdev rep b' f hb')
        rep.field b hb
    · intro h1
      exact absurd rfl h1
  exact ⟨hP, attempted_eq_occupied _ hP⟩

/-- C9 witness: on the concrete device with two qualifying multiplier
fields, slot 1 is occupied after discovery, so slot 0 is occupied too. -/
theorem discovery_slot_fill_order_witness :
    (hid_generic_fetch_resolution_multiplier twoMultDevice
        (initDevice 0)).report_id0 ≠ EMPTY_SLOT :=
  (discovery_slot_fill_order twoMultDevice 0).1 (by decide)

theorem fetch_no_multiplier (hdev : HidDevice)
    (hno : noResolutionMultiplier hdev = true) (dev : HidGenericDevice) :
    hid_generic_fetch_resolution_multiplier hdev dev = dev := by
  unfold hid_generic_fetch_resolution_multiplier
  apply foldl_fix
  intro rep hrep b
  unfold fetchReportStep
  apply foldl_fix
  intro f hf b'
  unfold fetchFieldStep
  cases hu : f.usage.head? with
  | none => rfl
  | some u =>
      dsimp only
      have hu_mem : u ∈ f.usage :=
        List.mem_of_mem_head? (show u ∈ f.usage.head? by rw [hu]; rfl)
      have hall := List.all_eq_true.mp
        (List.all_eq_true.mp
          (List.all_eq_true.mp hno rep hrep) f hf) u hu_mem
      rw [show (u.hid == HID_GD_RESOLUTION_MULTIPLIER) = false from by
        simpa using hall]
      simp

/-- C6: when input capabilities are finalized, the high-resolution wheel
event kind is advertised iff wheel_multiplier exceeds 1 and the
high-resolution horizontal-wheel kind iff hwheel_multiplier exceeds 1;
on a device with no resolution-multiplier field, discovery leaves both
multipliers at their default 1 and no high-resolution capability is
advertised. -/
theorem input_configured_caps :
    (∀ (dev : HidGenericDevice) (input : Nat),
        ((EV_REL, REL_WHEEL_HI_RES) ∈
            (hid_generic_input_configured dev input).2 ↔
          1 < dev.wheel_multiplier) ∧
        ((EV_REL, REL_HWHEEL_HI_RES) ∈
            (hid_generic_input_configured dev input).2 ↔
          1 < dev.hwheel_multiplier)) ∧
    (∀ (hdev : HidDevice) (h input : Nat),
        noResolutionMultiplier hdev = true →
        (hid_generic_fetch_resolution_multiplier hdev
            (initDevice h)).wheel_multiplier = 1 ∧
        (hid_generic_fetch_resolution_multiplier hdev
            (initDevice h)).hwheel_multiplier = 1 ∧
        (hid_generic_input_configured
          (hid_generic_fetch_resolution_multiplier hdev (initDevice h))
          input).2 = []) := by
  constructor
  · intro dev input
    unfold hid_generic_input_configured
    dsimp only
    constructor
    · by_cases h1 : dev.wheel_multiplier > 1 <;>
        by_cases h2 : dev.hwheel_multiplier > 1 <;>
        simp [h1, h2, EV_REL, REL_WHEEL_HI_RES, REL_HWHEEL_HI_RES]
    · by_cases h1 : dev.wheel_multiplier > 1 <;>
        by_cases h2 : dev.hwheel_multiplier > 1 <;>
        simp [h1, h2, EV_REL, REL_WHEEL_HI_RES, REL_HWHEEL_HI_RES]
  · intro hdev h input hno
    rw [fetch_no_multiplier hdev hno]
    exact ⟨rfl, rfl, rfl⟩

/-- C6 witness: the concrete device with a feature report but no
resolution-multiplier usage advertises no high-resolution capability. -/
theorem input_configured_caps_witness :
    (hid_generic_input_configured
        (hid_generic_fetch_resolution_multiplier noMultDevice (initDevice 0))
        3).2 = [] :=
  (input_configured_caps.2 noMultDevice 0 3 (by decide)).2.2

/-! ### Counting and validity invariants of discovery -/

theorem handle_no_axis (hdev : HidDevice) (rep : HidReport)
    (field : HidField) (u : HidUsage) (dev : HidGenericDevice)
    (h : (usage_in_collection hdev HID_GD_WHEEL u.collection_index ||
          usage_in_collection hdev HID_CP_AC_PAN u.collection_index) = false) :
    handle_resolution_multiplier hdev rep field u dev = dev := by
  unfold handle_resolution_multiplier
  dsimp only
  rw [Bool.or_eq_false_iff] at h
  rw [h.1, h.2]
  rfl

theorem handle_slotCountInv (hdev : HidDevice) (rep : HidReport)
    (field : HidField) (u : HidUsage) (dev : HidGenericDevice) (n : Nat)
    (hid : rep.id ≠ EMPTY_SLOT)
    (hq : (usage_in_collection hdev HID_GD_WHEEL u.collection_index ||
           usage_in_collection hdev HID_CP_AC_PAN u.collection_index) = true)
    (hP : slotCountInv n dev) :
    slotCountInv (n + 1) (handle_resolution_multiplier hdev rep field u dev) := by
  obtain ⟨h0, h1, h3⟩ := hP
  unfold handle_resolution_multiplier slotCountInv
  dsimp only
  split_ifs <;> refine ⟨?_, ?_, ?_⟩ <;> simp_all <;> omega

theorem fetchFieldStep_slotCountInv (hdev : HidDevice) (rep : HidReport)
    (hid : rep.id ≠ EMPTY_SLOT) (dev : HidGenericDevice) (n : Nat)
    (f : HidField) (hP : slotCountInv n dev) :
    slotCountInv (n + (if qualifies hdev f then 1 else 0))
      (fetchFieldStep hdev rep dev f) := by
  unfold fetchFieldStep qualifies
  cases hu : f.usage.head? with
  | none => simpa using hP
  | some u =>
      dsimp only
      by_cases hres : (u.hid == HID_GD_RESOLUTION_MULTIPLIER) = true
      · by_cases horh :
          (usage_in_collection hdev HID_GD_WHEEL u.collection_index ||
           usage_in_collection hdev HID_CP_AC_PAN u.collection_index) = true
        · have hqand : (u.hid == HID_GD_RESOLUTION_MULTIPLIER &&
              (usage_in_collection hdev HID_GD_WHEEL u.collection_index ||
               usage_in_collection hdev HID_CP_AC_PAN u.collection_index)) =
              true := by rw [hres, horh]; rfl
          rw [if_pos hres, if_pos hqand]
          exact handle_slotCountInv hdev rep f u dev n hid horh hP
        · have hof : (usage_in_collection hdev HID_GD_WHEEL
              u.collection_index ||
              usage_in_collection hdev HID_CP_AC_PAN u.collection_index) =
              false := Bool.of_not_eq_true horh
          have hqand : (u.hid == HID_GD_RESOLUTION_MULTIPLIER &&
              (usage_in_collection hdev HID_GD_WHEEL u.collection_index ||
               usage_in_collection hdev HID_CP_AC_PAN u.collection_index)) =
              false := by rw [hof]; simp
          rw [if_pos hres, if_neg (by rw [hqand]; simp),
            handle_no_axis hdev rep f u dev hof]
          simpa using hP
      · have hresf : (u.hid == HID_GD_RESOLUTION_MULTIPLIER) = false :=
          Bool.of_not_eq_true hres
        have hqand : (u.hid == HID_GD_RESOLUTION_MULTIPLIER &&
            (usage_in_collection hdev HID_GD_WHEEL u.collection_index ||
             usage_in_collection hdev HID_CP_AC_PAN u.collection_index)) =
            false := by rw [hresf]; simp
        rw [if_neg (by first | exact hres | (rw [hqand]; simp) | (rw [hresf]; simp)),
          if_neg (by first | exact hres | (rw [hqand]; simp) | (rw [hresf]; simp))]
        simpa using hP

theorem fetchReportStep_slotCountInv (hdev : HidDevice) (rep : HidReport)
    (hid : rep.id ≠ EMPTY_SLOT) :
    ∀ (dev : HidGenericDevice) (n : Nat), slotCountInv n dev →
      slotCountInv (n + (rep.field.filter (qualifies hdev)).length)
        (fetchReportStep hdev dev rep) := by
  unfold fetchReportStep
  suffices hgen : ∀ (fields : List HidField) (dev : HidGenericDevice)
      (n : Nat), slotCountInv n dev →
      slotCountInv (n + (fields.filter (qualifies hdev)).length)
        (fields.foldl (fetchFieldStep hdev rep) dev) by
    intro dev n hP
    exact hgen rep.field dev n hP
  intro fields
  induction fields with
  | nil => intro dev n hP; simpa using hP
  | cons f fs ih =>
      intro dev n hP
      rw [List.foldl_cons]
      have hstep := fetchFieldStep_slotCountInv hdev rep hid dev n f hP
      by_cases hq : qualifies hdev f = true
      · rw [if_pos hq] at hstep
        have hrec := ih (fetchFieldStep hdev rep dev f) (n + 1) hstep
        have harith : n + ((f :: fs).filter (qualifies hdev)).length =
            (n + 1) + (fs.filter (qualifies hdev)).length := by
          rw [List.filter_cons_of_pos hq]
          simp only [List.length_cons]
          omega
        rw [harith]
        exact hrec
      · rw [if_neg (by simp [Bool.of_not_eq_true hq])] at hstep
        have hrec := ih (fetchFieldStep hdev rep dev f) n (by simpa using hstep)
        have harith : n + ((f :: fs).filter (qualifies hdev)).length =
            n + (fs.filter (qualifies hdev)).length := by
          rw [List.filter_cons_of_neg (by simp [Bool.of_not_eq_true hq])]
        rw [harith]
        exact hrec

theorem fetch_slotCountInv (hdev : HidDevice)
    (hids : ∀ r ∈ hdev.featureReports, r.id ≠ EMPTY_SLOT) (h : Nat) :
    slotCountInv (numQualifying hdev)
      (hid_generic_fetch_resolution_multiplier hdev (initDevice h)) := by
  unfold hid_generic_fetch_resolution_multiplier numQualifying
  suffices hgen : ∀ (reps : List HidReport),
      (∀ r ∈ reps, r.id ≠ EMPTY_SLOT) →
      ∀ (dev : HidGenericDevice) (n : Nat), slotCountInv n dev →
      slotCountInv
        (n + ((reps.map fun rep =>
          (rep.field.filter (qualifies hdev)).length).sum))
        (reps.foldl (fetchReportStep hdev) dev) by
    have h0 : slotCountInv 0 (initDevice h) := by
      refine ⟨by simp [initDevice], by simp [initDevice], by simp⟩
    simpa using hgen hdev.featureReports hids (initDevice h) 0 h0
  intro reps
  induction reps with
  | nil => intro _ dev n hP; simpa using hP
  | cons r rs ih =>
      intro hids' dev n hP
      rw [List.foldl_cons]
      have hstep := fetchReportStep_slotCountInv hdev r
        (hids' r (List.mem_cons_self r rs)) dev n hP
      have hrec := ih (fun y hy => hids' y (List.mem_cons_of_mem r hy))
        (fetchReportStep hdev dev r)
        (n + (r.field.filter (qualifies hdev)).length) hstep
      have harith : n + (((r :: rs).map fun rep =>
          (rep.field.filter (qualifies hdev)).length).sum) =
          (n + (r.field.filter (qualifies hdev)).length) +
            ((rs.map fun rep =>
              (rep.field.filter (qualifies hdev)).length).sum) := by
        simp only [List.map_cons, List.sum_cons]
        omega
      rw [harith]
      exact hrec

/-- C3: when discovery encounters three or more qualifying
resolution-multiplier fields, at the end of discovery both multipliers
equal 1, a subsequent activation issues no SET_REPORT requests, and
attachment itself still returns whatever the device-start call returned. -/
theorem three_multipliers_reset :
    ∀ (hdev : HidDevice) (h : Nat),
      (∀ r ∈ hdev.featureReports, r.id ≠ EMPTY_SLOT) →
      3 ≤ numQualifying hdev →
      (hid_generic_fetch_resolution_multiplier hdev
          (initDevice h)).wheel_multiplier = 1 ∧
      (hid_generic_fetch_resolution_multiplier hdev
          (initDevice h)).hwheel_multiplier = 1 ∧
      (∀ (reports : List HidReport),
        hid_generic_set_resolution_multiplier
          (hid_generic_fetch_resolution_multiplier hdev (initDevice h))
          reports =
          (hid_generic_fetch_resolution_multiplier hdev (initDevice h),
           reports, [])) ∧
      (∀ startRet : Int, (hid_generic_probe hdev h 0 startRet).ret =
        startRet) := by
  intro hdev h hids h3
  have hP := fetch_slotCountInv hdev hids h
  have hm := hP.2.2 h3
  refine ⟨hm.1, hm.2, ?_, ?_⟩
  · intro reports
    unfold hid_generic_set_resolution_multiplier
    simp [hm.1, hm.2]
  · intro startRet
    rfl

/-- C3 witness: on the concrete device with three qualifying multiplier
fields, discovery ends with the wheel multiplier forced back to 1. -/
theorem three_multipliers_reset_witness :
    (hid_generic_fetch_resolution_multiplier threeMultDevice
        (initDevice 0)).wheel_multiplier = 1 :=
  (three_multipliers_reset threeMultDevice 0 (by decide) (by decide)).1

theorem handle_discoveryInv (hdev : HidDevice) (rep : HidReport)
    (field : HidField) (u : HidUsage) (dev : HidGenericDevice)
    (hmem : rep ∈ hdev.featureReports) (hid : rep.id ≠ EMPTY_SLOT)
    (hJ : discoveryInv hdev dev) :
    discoveryInv hdev (handle_resolution_multiplier hdev rep field u dev) := by
  obtain ⟨h1, h2⟩ := hJ
  unfold handle_resolution_multiplier discoveryInv
  dsimp only
  split_ifs <;> refine ⟨?_, ?_⟩ <;> intro hx <;>
    first
    | exact h1 hx
    | exact h2 hx
    | exact ⟨rep, hmem, rfl⟩
    | exact hid
    | simp_all

theorem fetch_discoveryInv (hdev : HidDevice)
    (hids : ∀ r ∈ hdev.featureReports, r.id ≠ EMPTY_SLOT) (h : Nat) :
    discoveryInv hdev
      (hid_generic_fetch_resolution_multiplier hdev (initDevice h)) := by
  unfold hid_generic_fetch_resolution_multiplier
  apply foldl_preserve_mem (fetchReportStep hdev) (discoveryInv hdev)
    (fun rep => rep ∈ hdev.featureReports ∧ rep.id ≠ EMPTY_SLOT)
    hdev.featureReports (fun r hr => ⟨hr, hids r hr⟩)
  · intro b rep hq hb
    unfold fetchReportStep
    apply foldl_preserve (fetchFieldStep hdev rep) (discoveryInv hdev)
    · intro b' f hb'
      unfold fetchFieldStep
      cases hu : f.usage.head? with
      | none => exact hb'
      | some u =>
          dsimp only
          split
          · exact handle_discoveryInv hdev rep f u b' hq.1 hq.2 hb'
          · exact hb'
    · exact hb
  · constructor
    · intro hcontra
      rcases hcontra with hc | hc <;> exact absurd rfl hc
    · intro hcontra
      exact absurd rfl hcontra

/-- C10: hid_generic_probe invokes the Multiplier Activator after the
device-start call unconditionally: with hid_parse succeeding and
hid_hw_start returning an error e, the probe result still carries the
activation's SET_REPORT requests — nonempty whenever a multiplier greater
than 1 was discovered — and propagates e as the attach result. -/
theorem probe_activates_despite_start_failure :
    ∀ (hdev : HidDevice) (h : Nat) (e : Int),
      e ≠ 0 →
      (∀ r ∈ hdev.featureReports, r.id ≠ EMPTY_SLOT) →
      (hid_generic_probe hdev h 0 e).ret = e ∧
      (hid_generic_probe hdev h 0 e).writes =
        (hid_generic_set_resolution_multiplier
          (hid_generic_fetch_resolution_multiplier hdev (initDevice h))
          hdev.featureReports).2.2 ∧
      ((1 < (hid_generic_fetch_resolution_multiplier hdev
              (initDevice h)).wheel_multiplier ∨
        1 < (hid_generic_fetch_resolution_multiplier hdev
              (initDevice h)).hwheel_multiplier) →
        (hid_generic_probe hdev h 0 e).writes ≠ []) := by
  intro hdev h e he hids
  refine ⟨rfl, rfl, ?_⟩
  intro hgt
  have hJ := fetch_discoveryInv hdev hids h
  have hmul : (hid_generic_fetch_resolution_multiplier hdev
        (initDevice h)).wheel_multiplier ≠ 1 ∨
      (hid_generic_fetch_resolution_multiplier hdev
        (initDevice h)).hwheel_multiplier ≠ 1 := by
    rcases hgt with hg | hg
    · exact Or.inl (by omega)
    · exact Or.inr (by omega)
  have h0 := hJ.1 hmul
  obtain ⟨r, hrmem, hrid⟩ := hJ.2 h0
  have hwr : (hid_generic_probe hdev h 0 e).writes =
      (hid_generic_set_resolution_multiplier
        (hid_generic_fetch_resolution_multiplier hdev (initDevice h))
        hdev.featureReports).2.2 := rfl
  rw [hwr, set_resolution_writes_eq]
  unfold writeList
  have hb : ((hid_generic_fetch_resolution_multiplier hdev
        (initDevice h)).wheel_multiplier == 1 &&
      (hid_generic_fetch_resolution_multiplier hdev
        (initDevice h)).hwheel_multiplier == 1) = false := by
    rcases hmul with hm | hm <;> simp [beq_iff_eq, hm]
  have h0b : ((hid_generic_fetch_resolution_multiplier hdev
        (initDevice h)).report_id0 == EMPTY_SLOT) = false := by
    simpa using h0
  have hany : (hdev.featureReports.any fun rr => rr.id ==
      (hid_generic_fetch_resolution_multiplier hdev
        (initDevice h)).report_id0) = true :=
    List.any_eq_true.mpr ⟨r, hrmem, by simpa using hrid⟩
  rw [hb, h0b, hany]
  simp

/-- C10 witness: on the concrete one-wheel device with start failing with
-5, the activation request is still issued and -5 is returned. -/
theorem probe_activates_despite_start_failure_witness :
    (hid_generic_probe oneWheelDevice 0 0 (-5)).writes ≠ [] :=
  (probe_activates_despite_start_failure oneWheelDevice 0 (-5) (by decide)
    (by decide)).2.2 (by decide)

end HidGeneric
